import Mathlib

/-!
Shallow embedding of the button-debouncing / gesture-recognition module
(buttons.c) and the countdown-timer application tasks (main.c, pwm.c) of the
freertos-start.X-2 repository, together with proofs of the specification
claims about them.

Machine integers are modelled as `Nat` with explicit reduction modulo
2 to the 16 where a `uint16_t` may wrap; `uint8_t` duty cycles are `Nat`
values whose range is the subject of a proved invariant.  Hardware reads
(GPIO probes, UART bytes) are supplied as explicit inputs; FreeRTOS queue
sends are modelled as a bounded list append that fails (returns the queue
unchanged and `false`) when the queue is at capacity, mirroring a
non-blocking `xQueueSend` with timeout 0.
-/

/- Configuration constants from buttons.c and app.h. -/

def DEBOUNCE_COUNT : Nat := 5

def LONG_PRESS_THRESHOLD_MS : Nat := 1000

def BUTTON_QUEUE_SIZE : Nat := 10

def U16_MOD : Nat := 65536

/- System state enumeration from app.h. -/

inductive SystemState where
  | STATE_WAITING
  | STATE_TIME_INPUT
  | STATE_READY
  | STATE_COUNTDOWN
  | STATE_PAUSED
  | STATE_COMPLETED
deriving DecidableEq, Repr

export SystemState (STATE_WAITING STATE_TIME_INPUT STATE_READY STATE_COUNTDOWN STATE_PAUSED STATE_COMPLETED)

/- Button event types from app.h. -/

inductive ButtonId where
  | BUTTON_NONE
  | BUTTON_PB1
  | BUTTON_PB2
  | BUTTON_PB3
  | BUTTON_PB2_AND_PB3
deriving DecidableEq, Repr

export ButtonId (BUTTON_NONE BUTTON_PB1 BUTTON_PB2 BUTTON_PB3 BUTTON_PB2_AND_PB3)

inductive ButtonEventType where
  | EVENT_NONE
  | EVENT_CLICK
  | EVENT_LONG_PRESS
  | EVENT_PRESSED
  | EVENT_RELEASED
deriving DecidableEq, Repr

export ButtonEventType (EVENT_NONE EVENT_CLICK EVENT_LONG_PRESS EVENT_PRESSED EVENT_RELEASED)

structure ButtonEvent where
  button : ButtonId
  event : ButtonEventType
deriving DecidableEq, Repr

/- Per-button state structure `ButtonState_t` from buttons.h.
`debounce_counter` and `press_duration` are `uint16_t` in the source. -/

structure ButtonState where
  current_state : Bool
  last_state : Bool
  raw_state : Bool
  debounce_counter : Nat
  press_duration : Nat
  click_pending : Bool
  long_press_sent : Bool
deriving DecidableEq, Repr

/-- Embedding of the static helper `UpdateButtonState` from buttons.c:
stores the raw reading, runs the counter-based debounce (committing a state
change after `DEBOUNCE_COUNT` consecutive disagreeing samples, queueing a
click on a release edge with no long press sent), and finally accumulates
`press_duration` while the debounced state is pressed. -/
def UpdateButtonState (state : ButtonState) (raw_reading : Bool) (elapsed_ms : Nat) :
    ButtonState :=
  let st := { state with raw_state := raw_reading }
  let st :=
    if raw_reading = st.current_state then
      { st with debounce_counter := 0 }
    else
      let c := (st.debounce_counter + 1) % U16_MOD
      if DEBOUNCE_COUNT ≤ c then
        let st := { st with last_state := st.current_state,
                            current_state := raw_reading,
                            debounce_counter := 0 }
        if st.current_state then
          { st with press_duration := 0, long_press_sent := false }
        else
          let st :=
            if st.long_press_sent = false then { st with click_pending := true } else st
          { st with press_duration := 0 }
      else
        { st with debounce_counter := c }
  if st.current_state then
    { st with press_duration := (st.press_duration + elapsed_ms) % U16_MOD }
  else
    st

/-- Folding `UpdateButtonState` over a list of raw readings, one polling tick
each, with a fixed elapsed time per tick (the button task calls
`Buttons_Update(10)` every 10 ms). -/
def applyRaws (state : ButtonState) (raws : List Bool) (elapsed_ms : Nat) : ButtonState :=
  raws.foldl (fun s r => UpdateButtonState s r elapsed_ms) state

/- The module-level static state of buttons.c: the three per-button states and
the PB2+PB3 combo-tracking variables.  `pb2_pb3_combo_duration` is `uint16_t`. -/

structure ButtonsModule where
  pb1 : ButtonState
  pb2 : ButtonState
  pb3 : ButtonState
  pb2_pb3_combo_click_pending : Bool
  pb2_pb3_combo_long_press_sent : Bool
  pb2_pb3_combo_duration : Nat
  pb2_was_pressed_in_combo : Bool
  pb3_was_pressed_in_combo : Bool
deriving DecidableEq, Repr

/-- Embedding of the PB2+PB3 combo-tracking section of `Buttons_Update`
(buttons.c lines 191-236), applied after the three per-button
`UpdateButtonState` calls.  It records which buttons were seen pressed during
the window, accumulates the combo duration while either is pressed, signals a
combo long press (cancelling individual clicks) when both are pressed past the
threshold, and on both-released evaluates the combo click and unconditionally
resets the window. -/
def ComboUpdate (m : ButtonsModule) (elapsed_ms : Nat) : ButtonsModule :=
  let pb2w := if m.pb2.current_state then true else m.pb2_was_pressed_in_combo
  let pb3w := if m.pb3.current_state then true else m.pb3_was_pressed_in_combo
  let dur :=
    if m.pb2.current_state || m.pb3.current_state then
      (m.pb2_pb3_combo_duration + elapsed_ms) % U16_MOD
    else
      m.pb2_pb3_combo_duration
  let fireLP := m.pb2.current_state && m.pb3.current_state &&
      decide (LONG_PRESS_THRESHOLD_MS ≤ dur) && !m.pb2_pb3_combo_long_press_sent
  let sent1 := if fireLP then true else m.pb2_pb3_combo_long_press_sent
  let pb2a := if fireLP then { m.pb2 with click_pending := false } else m.pb2
  let pb3a := if fireLP then { m.pb3 with click_pending := false } else m.pb3
  if !m.pb2.current_state && !m.pb3.current_state then
    let fireClick := pb2w && pb3w && decide (0 < dur) &&
        decide (dur < LONG_PRESS_THRESHOLD_MS) && !sent1
    { m with
      pb2 := if fireClick then { pb2a with click_pending := false } else pb2a,
      pb3 := if fireClick then { pb3a with click_pending := false } else pb3a,
      pb2_pb3_combo_click_pending :=
        if fireClick then true else m.pb2_pb3_combo_click_pending,
      pb2_pb3_combo_duration := 0,
      pb2_pb3_combo_long_press_sent := false,
      pb2_was_pressed_in_combo := false,
      pb3_was_pressed_in_combo := false }
  else
    { m with
      pb2 := pb2a,
      pb3 := pb3a,
      pb2_pb3_combo_duration := dur,
      pb2_pb3_combo_long_press_sent := sent1,
      pb2_was_pressed_in_combo := pb2w,
      pb3_was_pressed_in_combo := pb3w }

/-- Embedding of `Buttons_Update` from buttons.c: updates the three debounced
button states from the raw GPIO readings, then runs the combo-tracking logic. -/
def Buttons_Update (m : ButtonsModule) (raw1 raw2 raw3 : Bool) (elapsed_ms : Nat) :
    ButtonsModule :=
  ComboUpdate
    { m with
      pb1 := UpdateButtonState m.pb1 raw1 elapsed_ms,
      pb2 := UpdateButtonState m.pb2 raw2 elapsed_ms,
      pb3 := UpdateButtonState m.pb3 raw3 elapsed_ms }
    elapsed_ms

/-- Embedding of the static helper `CheckLongPress` from buttons.c: fires once
per press when the button is held past the threshold, cancelling the pending
click.  Returns the updated state and the boolean result. -/
def CheckLongPress (state : ButtonState) : ButtonState × Bool :=
  if state.current_state && decide (LONG_PRESS_THRESHOLD_MS ≤ state.press_duration) &&
      !state.long_press_sent then
    ({ state with long_press_sent := true, click_pending := false }, true)
  else
    (state, false)

/-- Embedding of `Buttons_IsPB1Clicked`: atomically reads and clears the
pending-click flag. -/
def Buttons_IsPB1Clicked (m : ButtonsModule) : Bool × ButtonsModule :=
  if m.pb1.click_pending then
    (true, { m with pb1 := { m.pb1 with click_pending := false } })
  else
    (false, m)

/-- Embedding of `Buttons_IsPB2Clicked`. -/
def Buttons_IsPB2Clicked (m : ButtonsModule) : Bool × ButtonsModule :=
  if m.pb2.click_pending then
    (true, { m with pb2 := { m.pb2 with click_pending := false } })
  else
    (false, m)

/-- Embedding of `Buttons_IsPB3Clicked`. -/
def Buttons_IsPB3Clicked (m : ButtonsModule) : Bool × ButtonsModule :=
  if m.pb3.click_pending then
    (true, { m with pb3 := { m.pb3 with click_pending := false } })
  else
    (false, m)

/-- Embedding of `Buttons_IsPB2AndPB3LongPress`: fires once per combo window
when both buttons are pressed and the combo duration has reached the
threshold. -/
def Buttons_IsPB2AndPB3LongPress (m : ButtonsModule) : ButtonsModule × Bool :=
  if m.pb2.current_state && m.pb3.current_state &&
      decide (LONG_PRESS_THRESHOLD_MS ≤ m.pb2_pb3_combo_duration) &&
      !m.pb2_pb3_combo_long_press_sent then
    ({ m with pb2_pb3_combo_long_press_sent := true }, true)
  else
    (m, false)

/-- Embedding of `Buttons_IsPB2AndPB3Click`: atomically reads and clears the
combo pending-click flag. -/
def Buttons_IsPB2AndPB3Click (m : ButtonsModule) : Bool × ButtonsModule :=
  if m.pb2_pb3_combo_click_pending then
    (true, { m with pb2_pb3_combo_click_pending := false })
  else
    (false, m)

/-- Non-blocking bounded queue send: `xQueueSend(xButtonQueue, e, 0)` appends
when the queue holds fewer than `BUTTON_QUEUE_SIZE` items and otherwise fails,
leaving the queue unchanged. -/
def xQueueSend (q : List ButtonEvent) (e : ButtonEvent) : List ButtonEvent × Bool :=
  if q.length < BUTTON_QUEUE_SIZE then (q ++ [e], true) else (q, false)

/-- Embedding of `Buttons_SendPendingEvents` from buttons.c: checks the
pending gestures in the source's fixed order (combo click, combo long press,
PB1 click, PB3 long press, PB3 click, PB2 click), clears the first pending
one, and attempts a single non-blocking queue send of the corresponding
event.  Returns the updated module state, the updated queue, and the
function's boolean result. -/
def Buttons_SendPendingEvents (m : ButtonsModule) (q : List ButtonEvent) :
    ButtonsModule × List ButtonEvent × Bool :=
  if m.pb2_pb3_combo_click_pending then
    let m1 := { m with pb2_pb3_combo_click_pending := false }
    let s := xQueueSend q ⟨BUTTON_PB2_AND_PB3, EVENT_CLICK⟩
    (m1, s.1, s.2)
  else
    let r := Buttons_IsPB2AndPB3LongPress m
    if r.2 then
      let s := xQueueSend q ⟨BUTTON_PB2_AND_PB3, EVENT_LONG_PRESS⟩
      (r.1, s.1, s.2)
    else
      if r.1.pb1.click_pending then
        let m1 := { r.1 with pb1 := { r.1.pb1 with click_pending := false } }
        let s := xQueueSend q ⟨BUTTON_PB1, EVENT_CLICK⟩
        (m1, s.1, s.2)
      else
        let lp := CheckLongPress r.1.pb3
        let m1 := { r.1 with pb3 := lp.1 }
        if lp.2 then
          let s := xQueueSend q ⟨BUTTON_PB3, EVENT_LONG_PRESS⟩
          (m1, s.1, s.2)
        else
          if m1.pb3.click_pending then
            let m2 := { m1 with pb3 := { m1.pb3 with click_pending := false } }
            let s := xQueueSend q ⟨BUTTON_PB3, EVENT_CLICK⟩
            (m2, s.1, s.2)
          else
            if m1.pb2.click_pending then
              let m2 := { m1 with pb2 := { m1.pb2 with click_pending := false } }
              let s := xQueueSend q ⟨BUTTON_PB2, EVENT_CLICK⟩
              (m2, s.1, s.2)
            else
              (m1, q, false)

/-- The event the specification's priority policy selects for delivery from a
given module state: combo click, then combo long-press, then PB1 click, then
PB3 long-press, then PB3 click, then PB2 click.  This definition follows the
wording of the specification and is compared against
`Buttons_SendPendingEvents`. -/
def specPriorityEvent (m : ButtonsModule) : Option ButtonEvent :=
  if m.pb2_pb3_combo_click_pending then
    some ⟨BUTTON_PB2_AND_PB3, EVENT_CLICK⟩
  else if m.pb2.current_state && m.pb3.current_state &&
      decide (LONG_PRESS_THRESHOLD_MS ≤ m.pb2_pb3_combo_duration) &&
      !m.pb2_pb3_combo_long_press_sent then
    some ⟨BUTTON_PB2_AND_PB3, EVENT_LONG_PRESS⟩
  else if m.pb1.click_pending then
    some ⟨BUTTON_PB1, EVENT_CLICK⟩
  else if m.pb3.current_state && decide (LONG_PRESS_THRESHOLD_MS ≤ m.pb3.press_duration) &&
      !m.pb3.long_press_sent then
    some ⟨BUTTON_PB3, EVENT_LONG_PRESS⟩
  else if m.pb3.click_pending then
    some ⟨BUTTON_PB3, EVENT_CLICK⟩
  else if m.pb2.click_pending then
    some ⟨BUTTON_PB2, EVENT_CLICK⟩
  else
    none

/- PWM module state from pwm.c: duty cycle (`uint8_t`, 0-100) and pulse
phase (`uint16_t`, wraps naturally). -/

structure PwmState where
  pwm_duty_cycle : Nat
  pulse_phase : Nat
deriving DecidableEq, Repr

/-- The 16-entry half-sine brightness table from pwm.c, values 0-100. -/
def sine_table : List Nat :=
  [0, 5, 20, 39, 59, 78, 91, 98, 100, 98, 91, 78, 59, 39, 20, 5]

/-- Embedding of `PWM_SetDutyCycle`: clamps any argument above 100 down to
100 before storing. -/
def PWM_SetDutyCycle (s : PwmState) (duty_percent : Nat) : PwmState :=
  let d := if 100 < duty_percent then 100 else duty_percent
  { s with pwm_duty_cycle := d }

/-- Embedding of `PWM_UpdatePulse`: advances the 16-bit pulse phase by
`elapsed_ms * 65536 / period_ms` (truncated to `uint16_t`, wrapping on
addition), maps the top four phase bits to a sine-table index, and stores the
table entry as the duty cycle. -/
def PWM_UpdatePulse (s : PwmState) (elapsed_ms period_ms : Nat) : PwmState :=
  let phase_increment := elapsed_ms * 65536 / period_ms
  let phase := (s.pulse_phase + phase_increment % U16_MOD) % U16_MOD
  let table_index := phase / 4096
  { pulse_phase := phase, pwm_duty_cycle := sine_table.getD table_index 0 }

/-- Embedding of `PWM_ResetPulse`: phase back to 0, duty cycle from the first
table entry. -/
def PWM_ResetPulse (_s : PwmState) : PwmState :=
  { pulse_phase := 0, pwm_duty_cycle := sine_table.getD 0 0 }

/- Shared application state touched by the countdown task (main.c): the
system phase, the stored countdown time (`uint16_t g_CountdownSeconds`), and
the button-event queue.  The countdown task reads `g_CountdownSeconds` once,
counts down a local copy, and writes the phase once at the end; it never
touches the button queue. -/

structure MainState where
  g_SystemState : SystemState
  g_CountdownSeconds : Nat
  xButtonQueue : List ButtonEvent
deriving DecidableEq, Repr

/-- Outcome of one activation of `vCountdownTask` (one take of
`xStartCountdownSem`): the shared state afterwards, the successive values of
the task's local `remaining` counter after each one-second loop iteration,
and every value the task assigned to `g_SystemState` during the activation. -/
structure CountdownOutcome where
  final : MainState
  remainingTrace : List Nat
  phaseWrites : List SystemState
deriving DecidableEq, Repr

/-- The `while (remaining > 0)` loop of `vCountdownTask`: each iteration
delays one second, decrements the local `remaining` by one, redisplays the
time and toggles LED1/LED2 (external side effects).  The loop reads no shared
state and consumes no button events; its observable trace is the sequence of
`remaining` values after each iteration. -/
def countdownLoopTrace : Nat → List Nat
  | 0 => []
  | n + 1 => n :: countdownLoopTrace n

/-- Embedding of one activation of `vCountdownTask` from main.c: copy
`g_CountdownSeconds` into the local `remaining`; if zero, report an error and
write `STATE_WAITING`; otherwise run the one-second countdown loop to zero
and then write `STATE_WAITING`.  No other assignment to `g_SystemState`
occurs in the task, and the task never reads `xButtonQueue` or re-checks
`g_SystemState` inside the loop. -/
def vCountdownActivation (s : MainState) : CountdownOutcome :=
  let remaining := s.g_CountdownSeconds
  if remaining = 0 then
    { final := { s with g_SystemState := STATE_WAITING },
      remainingTrace := [],
      phaseWrites := [STATE_WAITING] }
  else
    { final := { s with g_SystemState := STATE_WAITING },
      remainingTrace := countdownLoopTrace remaining,
      phaseWrites := [STATE_WAITING] }

/- Time-input task (vTimeInputTask, main.c): UART command stream and the
MM:SS submission logic. -/

inductive UartCmdType where
  | UART_CMD_NONE
  | UART_CMD_CHAR
  | UART_CMD_ENTER
  | UART_CMD_BACKSPACE
  | UART_CMD_TOGGLE_INFO
  | UART_CMD_TOGGLE_BLINK
deriving DecidableEq, Repr

export UartCmdType (UART_CMD_NONE UART_CMD_CHAR UART_CMD_ENTER UART_CMD_BACKSPACE UART_CMD_TOGGLE_INFO UART_CMD_TOGGLE_BLINK)

structure UartCmd where
  type : UartCmdType
  character : Char
deriving DecidableEq, Repr

/- Terminal messages the time-input task can emit on a submission. -/

inductive TerminalMsg where
  | timeSet
  | invalidTime
  | invalidFormat
deriving DecidableEq, Repr

/- State of one pass of the time-entry loop in `vTimeInputTask`: the input
buffer, the loop flag `got_valid_time`, the shared phase and stored seconds,
and the messages written to the terminal.  `input_buffer` models the raw
bytes of the C array up to `input_index` (capacity 16 including the
terminator, so at most 15 bytes): it may contain a NUL byte, because the
Enter handler overwrites the first colon with NUL before validating and
`input_index` is not adjusted when a submission is rejected.  The string
functions `strchr` and `atoi` therefore operate on the prefix up to the
first NUL. -/

structure TimeInputState where
  input_buffer : List Char
  got_valid_time : Bool
  g_SystemState : SystemState
  g_CountdownSeconds : Nat
  messages : List TerminalMsg
deriving DecidableEq, Repr

/-- C `atoi` restricted to the strings this task can build (digits and at
most a colon, where parsing stops): accumulate the leading decimal digits. -/
def atoiDigits : Nat → List Char → Nat
  | acc, [] => acc
  | acc, c :: rest =>
      if '0' ≤ c ∧ c ≤ '9' then atoiDigits (acc * 10 + (c.toNat - 48)) rest else acc

/-- `strchr(buffer, ':')` followed by splitting at the first colon:
`none` when the buffer holds no colon, otherwise the characters before the
first colon and the characters after it. -/
def splitAtColon : List Char → Option (List Char × List Char)
  | [] => none
  | c :: rest =>
      if c = ':' then
        some ([], rest)
      else
        match splitAtColon rest with
        | none => none
        | some p => some (c :: p.1, p.2)

/-- The C string the library functions see in `input_buffer`: the bytes up
to (excluding) the first NUL. -/
def cString (buffer : List Char) : List Char :=
  buffer.takeWhile (fun c => c != '\x00')

/-- The destructive `*colon_pos = '\x00'` of the Enter handler: overwrite
the first colon of the raw buffer with a NUL byte, leaving `input_index`
(the list length) unchanged.  Used only when `strchr` found a colon in the
C string, in which case the first colon of the raw buffer is that one. -/
def setNulAtFirstColon : List Char → List Char
  | [] => []
  | c :: rest => if c = ':' then '\x00' :: rest else c :: setNulAtFirstColon rest

/-- Embedding of one iteration of the input loop of `vTimeInputTask` on a
received UART command: printable digits and the colon are appended to the
buffer while it has room; backspace removes the last byte; Enter with a
non-empty buffer runs `strchr` on the C string (the bytes up to the first
NUL), and when a colon is found it first overwrites that colon with NUL in
the raw buffer and then parses both sides with `atoi` into `uint16_t`; on
`seconds < 60 && (minutes > 0 || seconds > 0)` it stores
`minutes*60 + seconds` into `g_CountdownSeconds`, sets the phase to
`STATE_READY` and reports success; otherwise it reports invalid-time (the
injected NUL staying in the buffer) or, with no colon, invalid-format, and
changes nothing else. -/
def processUartCmd (s : TimeInputState) (cmd : UartCmd) : TimeInputState :=
  match cmd.type with
  | UART_CMD_CHAR =>
      if (('0' ≤ cmd.character ∧ cmd.character ≤ '9') ∨ cmd.character = ':') then
        if s.input_buffer.length < 15 then
          { s with input_buffer := s.input_buffer ++ [cmd.character] }
        else
          s
      else
        s
  | UART_CMD_BACKSPACE =>
      if 0 < s.input_buffer.length then
        { s with input_buffer := s.input_buffer.dropLast }
      else
        s
  | UART_CMD_ENTER =>
      if 0 < s.input_buffer.length then
        match splitAtColon (cString s.input_buffer) with
        | some p =>
            let buf := setNulAtFirstColon s.input_buffer
            let minutes := atoiDigits 0 p.1 % U16_MOD
            let seconds := atoiDigits 0 p.2 % U16_MOD
            if seconds < 60 ∧ (0 < minutes ∨ 0 < seconds) then
              { s with input_buffer := buf,
                       got_valid_time := true,
                       g_CountdownSeconds := (minutes * 60 + seconds) % U16_MOD,
                       g_SystemState := STATE_READY,
                       messages := s.messages ++ [TerminalMsg.timeSet] }
            else
              { s with input_buffer := buf,
                       messages := s.messages ++ [TerminalMsg.invalidTime] }
        | none =>
            { s with messages := s.messages ++ [TerminalMsg.invalidFormat] }
      else
        s
  | _ => s

/-- The input loop: commands are consumed one at a time until
`got_valid_time` becomes true, at which point the loop exits and later
commands are no longer processed by this pass. -/
def runTimeInput (s : TimeInputState) (cmds : List UartCmd) : TimeInputState :=
  cmds.foldl (fun st c => if st.got_valid_time then st else processUartCmd st c) s

/-- The freshly reset input state at the top of a time-entry pass: empty
buffer, `got_valid_time` false, phase `STATE_TIME_INPUT`, no messages yet. -/
def initialTimeInput (storedSeconds : Nat) : TimeInputState :=
  { input_buffer := [],
    got_valid_time := false,
    g_SystemState := STATE_TIME_INPUT,
    g_CountdownSeconds := storedSeconds,
    messages := [] }

/- Concrete UART command sequences for the submission scenarios of the
specification. -/

def cmdsValidTime : List UartCmd :=
  [⟨UART_CMD_CHAR, '0'⟩, ⟨UART_CMD_CHAR, '5'⟩, ⟨UART_CMD_CHAR, ':'⟩,
   ⟨UART_CMD_CHAR, '3'⟩, ⟨UART_CMD_CHAR, '0'⟩, ⟨UART_CMD_ENTER, '\r'⟩]

def cmdsNoColon : List UartCmd :=
  [⟨UART_CMD_CHAR, '9'⟩, ⟨UART_CMD_CHAR, '9'⟩, ⟨UART_CMD_ENTER, '\r'⟩]

/- An invalid submission (0:60) followed by an attempted correction: two
backspaces, then 4, 5 and Enter.  Because the rejected submission left a NUL
over the colon, the second Enter sees the C string truncated at that NUL. -/

def cmdsInvalidThenRetry : List UartCmd :=
  [⟨UART_CMD_CHAR, '0'⟩, ⟨UART_CMD_CHAR, ':'⟩, ⟨UART_CMD_CHAR, '6'⟩,
   ⟨UART_CMD_CHAR, '0'⟩, ⟨UART_CMD_ENTER, '\r'⟩,
   ⟨UART_CMD_BACKSPACE, '\x08'⟩, ⟨UART_CMD_BACKSPACE, '\x08'⟩,
   ⟨UART_CMD_CHAR, '4'⟩, ⟨UART_CMD_CHAR, '5'⟩, ⟨UART_CMD_ENTER, '\r'⟩]

/- A released, idle button state and some concrete module states used to
instantiate the universally quantified theorems. -/

def idleBtn : ButtonState := ⟨false, false, false, 0, 0, false, false⟩

def pendingBtn : ButtonState := ⟨false, false, false, 0, 0, true, false⟩

def allPendingModule : ButtonsModule :=
  ⟨pendingBtn, pendingBtn, pendingBtn, true, false, 0, false, false⟩

def comboWindowModule : ButtonsModule :=
  ⟨idleBtn, pendingBtn, pendingBtn, false, false, 300, true, true⟩

def bothHeldModule : ButtonsModule :=
  ⟨idleBtn, ⟨true, false, true, 0, 990, false, false⟩,
   ⟨true, false, true, 0, 990, false, false⟩, false, false, 990, true, true⟩

/- ===================== Theorems ===================== -/

section Lemmas

/-- Helper: a sample agreeing with the debounced state leaves the debounced
state unchanged and resets the counter. -/
theorem updateButtonState_agree (st : ButtonState) (raw : Bool) (e : Nat)
    (h : raw = st.current_state) :
    (UpdateButtonState st raw e).current_state = st.current_state ∧
    (UpdateButtonState st raw e).debounce_counter = 0 := by
  simp only [UpdateButtonState, h]
  split_ifs <;> simp

/-- Helper: a disagreeing sample whose incremented counter stays below the
threshold leaves the debounced state unchanged and increments the counter. -/
theorem updateButtonState_disagree (st : ButtonState) (raw : Bool) (e : Nat)
    (h : raw ≠ st.current_state) (hc : st.debounce_counter + 1 < DEBOUNCE_COUNT) :
    (UpdateButtonState st raw e).current_state = st.current_state ∧
    (UpdateButtonState st raw e).debounce_counter = st.debounce_counter + 1 := by
  have hc5 : st.debounce_counter + 1 < 5 := by
    simpa [DEBOUNCE_COUNT] using hc
  have hmod : (st.debounce_counter + 1) % 65536 = st.debounce_counter + 1 :=
    Nat.mod_eq_of_lt (by omega)
  simp only [UpdateButtonState, DEBOUNCE_COUNT, U16_MOD, hmod]
  rw [if_neg h, if_neg (show ¬ (5 ≤ st.debounce_counter + 1) from by omega)]
  by_cases hcur : st.current_state <;> simp [hcur]

/-- Helper: after any debounce update the counter is strictly below the
threshold. -/
theorem updateButtonState_counter_lt (st : ButtonState) (raw : Bool) (e : Nat) :
    (UpdateButtonState st raw e).debounce_counter < DEBOUNCE_COUNT := by
  simp only [UpdateButtonState, DEBOUNCE_COUNT, U16_MOD]
  split_ifs <;> simp <;> omega

end Lemmas

/-- Claim C8: after every call of the per-button debounce update, the
debounce counter never exceeds the threshold of 5, and it is reset to 0
whenever the raw sample matches the current debounced state. -/
theorem c8_debounce_counter_invariant (st : ButtonState) (raw : Bool) (e : Nat) :
    (UpdateButtonState st raw e).debounce_counter ≤ DEBOUNCE_COUNT ∧
    (raw = st.current_state → (UpdateButtonState st raw e).debounce_counter = 0) := by
  exact ⟨Nat.le_of_lt (updateButtonState_counter_lt st raw e),
    fun h => (updateButtonState_agree st raw e h).2⟩

/-- Witness for C8 at a concrete state with an agreeing sample. -/
theorem c8_witness :
    (UpdateButtonState idleBtn false 10).debounce_counter ≤ DEBOUNCE_COUNT ∧
    (false = idleBtn.current_state → (UpdateButtonState idleBtn false 10).debounce_counter = 0) :=
  c8_debounce_counter_invariant idleBtn false 10

/-- Claim C9: for each click-check operation, when a click is pending the
first call returns true (clearing the flag) and an immediately repeated call
returns false. -/
theorem c9_click_read_and_clear (m : ButtonsModule) :
    (m.pb1.click_pending = true →
      (Buttons_IsPB1Clicked m).1 = true ∧
      (Buttons_IsPB1Clicked (Buttons_IsPB1Clicked m).2).1 = false) ∧
    (m.pb2.click_pending = true →
      (Buttons_IsPB2Clicked m).1 = true ∧
      (Buttons_IsPB2Clicked (Buttons_IsPB2Clicked m).2).1 = false) ∧
    (m.pb3.click_pending = true →
      (Buttons_IsPB3Clicked m).1 = true ∧
      (Buttons_IsPB3Clicked (Buttons_IsPB3Clicked m).2).1 = false) ∧
    (m.pb2_pb3_combo_click_pending = true →
      (Buttons_IsPB2AndPB3Click m).1 = true ∧
      (Buttons_IsPB2AndPB3Click (Buttons_IsPB2AndPB3Click m).2).1 = false) := by
  refine ⟨fun h => ?_, fun h => ?_, fun h => ?_, fun h => ?_⟩ <;>
    simp [Buttons_IsPB1Clicked, Buttons_IsPB2Clicked, Buttons_IsPB3Clicked,
      Buttons_IsPB2AndPB3Click, h]

/-- Witness for C9 at a concrete module with every click pending. -/
theorem c9_witness :
    ((Buttons_IsPB1Clicked allPendingModule).1 = true ∧
      (Buttons_IsPB1Clicked (Buttons_IsPB1Clicked allPendingModule).2).1 = false) ∧
    ((Buttons_IsPB2AndPB3Click allPendingModule).1 = true ∧
      (Buttons_IsPB2AndPB3Click (Buttons_IsPB2AndPB3Click allPendingModule).2).1 = false) :=
  ⟨(c9_click_read_and_clear allPendingModule).1 (by decide),
   (c9_click_read_and_clear allPendingModule).2.2.2 (by decide)⟩

section Lemmas

/-- Helper: every entry the sine table can yield (any index, default 0) is at
most 100. -/
theorem sine_table_getD_le (i : Nat) : sine_table.getD i 0 ≤ 100 := by
  rcases Nat.lt_or_ge i 16 with h | h
  · interval_cases i <;> decide
  · have hlen : sine_table.length ≤ i := by
      simpa [sine_table] using h
    rw [List.getD_eq_default _ _ hlen]
    exact Nat.zero_le _

end Lemmas

/-- Claim C10: the PWM duty cycle stays in 0..100: `PWM_SetDutyCycle` clamps
arguments above 100 down to 100, all sixteen sine-table entries are at most
100, and `PWM_UpdatePulse` / `PWM_ResetPulse` only assign table entries. -/
theorem c10_duty_cycle_range (s : PwmState) (duty elapsed period i : Nat) :
    (PWM_SetDutyCycle s duty).pwm_duty_cycle ≤ 100 ∧
    (PWM_UpdatePulse s elapsed period).pwm_duty_cycle ≤ 100 ∧
    (PWM_ResetPulse s).pwm_duty_cycle ≤ 100 ∧
    sine_table.getD i 0 ≤ 100 := by
  refine ⟨?_, ?_, ?_, sine_table_getD_le i⟩
  · simp only [PWM_SetDutyCycle]
    split_ifs <;> omega
  · simpa [PWM_UpdatePulse] using sine_table_getD_le _
  · simpa [PWM_ResetPulse] using sine_table_getD_le 0

section Lemmas

/-- Helper: a run of disagreeing samples shorter than what remains of the
threshold leaves the debounced state unchanged and accumulates the counter. -/
theorem applyRaws_flips (e : Nat) :
    ∀ (k : Nat) (st : ButtonState), st.debounce_counter + k < DEBOUNCE_COUNT →
      (applyRaws st (List.replicate k (!st.current_state)) e).current_state
          = st.current_state ∧
      (applyRaws st (List.replicate k (!st.current_state)) e).debounce_counter
          = st.debounce_counter + k := by
  intro k
  induction k with
  | zero => intro st _; simp [applyRaws]
  | succ n ih =>
      intro st hk
      have hne : (!st.current_state) ≠ st.current_state := by
        cases st.current_state <;> decide
      have hc : st.debounce_counter + 1 < DEBOUNCE_COUNT := by omega
      obtain ⟨hcur, hcnt⟩ := updateButtonState_disagree st (!st.current_state) e hne hc
      have step :
          applyRaws st (List.replicate (n + 1) (!st.current_state)) e
            = applyRaws (UpdateButtonState st (!st.current_state) e)
                (List.replicate n (!st.current_state)) e := by
        simp [applyRaws, List.replicate_succ]
      obtain ⟨ih1, ih2⟩ :=
        ih (UpdateButtonState st (!st.current_state) e) (by rw [hcnt]; omega)
      rw [hcur] at ih1 ih2
      rw [hcnt] at ih2
      rw [step]
      exact ⟨ih1, by rw [ih2]; omega⟩

/-- Helper: any run of agreeing samples leaves the debounced state
unchanged. -/
theorem applyRaws_agree (e : Nat) :
    ∀ (j : Nat) (st : ButtonState),
      (applyRaws st (List.replicate j st.current_state) e).current_state
        = st.current_state := by
  intro j
  induction j with
  | zero => intro st; simp [applyRaws]
  | succ n ih =>
      intro st
      have step :
          applyRaws st (List.replicate (n + 1) st.current_state) e
            = applyRaws (UpdateButtonState st st.current_state e)
                (List.replicate n st.current_state) e := by
        simp [applyRaws, List.replicate_succ]
      have hcur := (updateButtonState_agree st st.current_state e rfl).1
      have := ih (UpdateButtonState st st.current_state e)
      rw [hcur] at this
      rw [step]
      exact this

end Lemmas

/-- Claim C6: starting from a settled state (counter 0), a raw reading that
differs from the debounced state for fewer than `DEBOUNCE_COUNT = 5`
consecutive ticks and then returns to agreement never changes
`current_state`.  The theorem is quantified over every flip-run length below
the threshold and every agreement-run length, so it also covers every prefix
of such a disturbance. -/
theorem c6_noise_rejection (st : ButtonState) (e k j : Nat)
    (hc : st.debounce_counter = 0) (hk : k < DEBOUNCE_COUNT) :
    (applyRaws st
        (List.replicate k (!st.current_state) ++ List.replicate j st.current_state)
        e).current_state
      = st.current_state := by
  have hsplit :
      applyRaws st
          (List.replicate k (!st.current_state) ++ List.replicate j st.current_state) e
        = applyRaws (applyRaws st (List.replicate k (!st.current_state)) e)
            (List.replicate j st.current_state) e := by
    simp [applyRaws, List.foldl_append]
  obtain ⟨h1, _⟩ := applyRaws_flips e k st (by omega)
  rw [hsplit]
  have := applyRaws_agree e j (applyRaws st (List.replicate k (!st.current_state)) e)
  rw [h1] at this
  exact this

/-- Witness for C6: four disagreeing ticks then three agreeing ticks starting
from the released idle state leave the debounced state released. -/
theorem c6_witness :
    idleBtn.debounce_counter = 0 ∧ 4 < DEBOUNCE_COUNT ∧
    (applyRaws idleBtn
        (List.replicate 4 (!idleBtn.current_state) ++ List.replicate 3 idleBtn.current_state)
        10).current_state
      = idleBtn.current_state :=
  ⟨rfl, by decide, c6_noise_rejection idleBtn 10 4 3 rfl (by decide)⟩

/-- Claim C1 (code evaluation at the failing input): with the phase
`STATE_COUNTDOWN` and three seconds stored, the countdown task decrements its
remaining counter once per elapsed second down to 0, but then writes
`STATE_WAITING` directly: the activation's only phase write is
`STATE_WAITING`, so the phase never becomes `STATE_COMPLETED` and there is no
5-second completion interval. -/
theorem c1_no_completed_phase :
    (vCountdownActivation ⟨STATE_COUNTDOWN, 3, []⟩).remainingTrace = [2, 1, 0] ∧
    (vCountdownActivation ⟨STATE_COUNTDOWN, 3, []⟩).final.g_SystemState = STATE_WAITING ∧
    (vCountdownActivation ⟨STATE_COUNTDOWN, 3, []⟩).phaseWrites = [STATE_WAITING] ∧
    STATE_COMPLETED ∉ (vCountdownActivation ⟨STATE_COUNTDOWN, 3, []⟩).phaseWrites := by
  decide

/-- Claim C2 (code evaluation at the failing input): with the phase
`STATE_COUNTDOWN`, three seconds stored and a PB3 click (or PB3 long-press)
event sitting in the button queue, the countdown task never consumes the
event (the queue is returned unchanged), never writes `STATE_PAUSED`, and
runs all three one-second iterations to completion instead of pausing or
aborting within one polling tick. -/
theorem c2_no_pause_or_abort :
    (vCountdownActivation
        ⟨STATE_COUNTDOWN, 3, [⟨BUTTON_PB3, EVENT_CLICK⟩]⟩).final.xButtonQueue
      = [⟨BUTTON_PB3, EVENT_CLICK⟩] ∧
    STATE_PAUSED ∉ (vCountdownActivation
        ⟨STATE_COUNTDOWN, 3, [⟨BUTTON_PB3, EVENT_CLICK⟩]⟩).phaseWrites ∧
    (vCountdownActivation
        ⟨STATE_COUNTDOWN, 3, [⟨BUTTON_PB3, EVENT_CLICK⟩]⟩).remainingTrace = [2, 1, 0] ∧
    (vCountdownActivation
        ⟨STATE_COUNTDOWN, 3, [⟨BUTTON_PB3, EVENT_LONG_PRESS⟩]⟩).final.xButtonQueue
      = [⟨BUTTON_PB3, EVENT_LONG_PRESS⟩] ∧
    (vCountdownActivation
        ⟨STATE_COUNTDOWN, 3, [⟨BUTTON_PB3, EVENT_LONG_PRESS⟩]⟩).remainingTrace
      = [2, 1, 0] := by
  decide

/-- Claim C7: submitting the characters 0,5,:,3,0 followed by Enter stores
330 seconds and moves the phase to `STATE_READY`; submitting 9,9 followed by
Enter (no colon) reports a format error and stays in `STATE_TIME_INPUT` with
the stored time untouched; and in general any Enter submission whose parsed
value fails the validity check (seconds at least 60, or minutes and seconds
both zero) appends an invalid-time report and overwrites the buffer's first
colon with NUL (the source's pre-validation `strchr` truncation), leaving the
phase and the stored time unchanged.  The last conjunct exercises that
destructive write: after a rejected 0:60 submission, backspacing twice and
submitting 45 still fails with a format error because the C string now ends
at the injected NUL. -/
theorem c7_time_submission :
    ((runTimeInput (initialTimeInput 0) cmdsValidTime).g_CountdownSeconds = 330 ∧
      (runTimeInput (initialTimeInput 0) cmdsValidTime).g_SystemState = STATE_READY ∧
      (runTimeInput (initialTimeInput 0) cmdsValidTime).messages = [TerminalMsg.timeSet]) ∧
    ((runTimeInput (initialTimeInput 0) cmdsNoColon).g_SystemState = STATE_TIME_INPUT ∧
      (runTimeInput (initialTimeInput 0) cmdsNoColon).g_CountdownSeconds = 0 ∧
      (runTimeInput (initialTimeInput 0) cmdsNoColon).messages = [TerminalMsg.invalidFormat]) ∧
    (∀ (s : TimeInputState) (p : List Char × List Char),
      splitAtColon (cString s.input_buffer) = some p →
      0 < s.input_buffer.length →
      ¬(atoiDigits 0 p.2 % U16_MOD < 60 ∧
          (0 < atoiDigits 0 p.1 % U16_MOD ∨ 0 < atoiDigits 0 p.2 % U16_MOD)) →
      processUartCmd s ⟨UART_CMD_ENTER, '\r'⟩
        = { s with input_buffer := setNulAtFirstColon s.input_buffer,
                   messages := s.messages ++ [TerminalMsg.invalidTime] }) ∧
    ((runTimeInput (initialTimeInput 0) cmdsInvalidThenRetry).g_SystemState
        = STATE_TIME_INPUT ∧
      (runTimeInput (initialTimeInput 0) cmdsInvalidThenRetry).g_CountdownSeconds = 0 ∧
      (runTimeInput (initialTimeInput 0) cmdsInvalidThenRetry).messages
        = [TerminalMsg.invalidTime, TerminalMsg.invalidFormat] ∧
      (runTimeInput (initialTimeInput 0) cmdsInvalidThenRetry).input_buffer
        = ['0', '\x00', '4', '5']) := by
  refine ⟨by decide, by decide, ?_, by decide⟩
  intro s p hsplit hlen hbad
  simp only [processUartCmd]
  rw [if_pos hlen, hsplit]
  simp only []
  rw [if_neg hbad]

/-- Witness for C7's general error conjunct: submitting 0:60 (seconds = 60)
appends the invalid-time report and NULs the colon, leaving phase and stored
time unchanged. -/
theorem c7_witness :
    processUartCmd ⟨['0', ':', '6', '0'], false, STATE_TIME_INPUT, 0, []⟩
        ⟨UART_CMD_ENTER, '\r'⟩
      = ⟨['0', '\x00', '6', '0'], false, STATE_TIME_INPUT, 0, [TerminalMsg.invalidTime]⟩ :=
  c7_time_submission.2.2.1 ⟨['0', ':', '6', '0'], false, STATE_TIME_INPUT, 0, []⟩
    (['0'], ['6', '0']) (by decide) (by decide) (by decide)

/-- Claim C4: at the tick where PB2 and PB3 are both debounced-released, if
both were observed pressed during the window, the accumulated duration is
strictly between 0 and the long-press threshold, and no combo long press was
signaled, then exactly one combo click becomes pending, pending individual
PB2/PB3 clicks are cleared, and the window is reset; moreover (second
conjunct) the window reset happens unconditionally whenever both buttons are
debounced-released. -/
theorem c4_combo_click (m : ButtonsModule) (e : Nat)
    (h2 : m.pb2.current_state = false) (h3 : m.pb3.current_state = false)
    (hw2 : m.pb2_was_pressed_in_combo = true) (hw3 : m.pb3_was_pressed_in_combo = true)
    (hd0 : 0 < m.pb2_pb3_combo_duration)
    (hd1 : m.pb2_pb3_combo_duration < LONG_PRESS_THRESHOLD_MS)
    (hs : m.pb2_pb3_combo_long_press_sent = false) :
    ((ComboUpdate m e).pb2_pb3_combo_click_pending = true ∧
      (ComboUpdate m e).pb2.click_pending = false ∧
      (ComboUpdate m e).pb3.click_pending = false ∧
      (ComboUpdate m e).pb2_pb3_combo_duration = 0 ∧
      (ComboUpdate m e).pb2_was_pressed_in_combo = false ∧
      (ComboUpdate m e).pb3_was_pressed_in_combo = false ∧
      (ComboUpdate m e).pb2_pb3_combo_long_press_sent = false) ∧
    (∀ m' : ButtonsModule, m'.pb2.current_state = false → m'.pb3.current_state = false →
      (ComboUpdate m' e).pb2_pb3_combo_duration = 0 ∧
      (ComboUpdate m' e).pb2_was_pressed_in_combo = false ∧
      (ComboUpdate m' e).pb3_was_pressed_in_combo = false ∧
      (ComboUpdate m' e).pb2_pb3_combo_long_press_sent = false) := by
  constructor
  · simp [ComboUpdate, h2, h3, hw2, hw3, hs, hd0, hd1]
  · intro m' h2' h3'
    simp [ComboUpdate, h2', h3']

/-- Witness for C4 at a concrete window: both buttons released after both
were seen pressed for 300 ms with no long press signaled. -/
theorem c4_witness :
    (ComboUpdate comboWindowModule 10).pb2_pb3_combo_click_pending = true ∧
    (ComboUpdate comboWindowModule 10).pb2.click_pending = false ∧
    (ComboUpdate comboWindowModule 10).pb3.click_pending = false ∧
    (ComboUpdate comboWindowModule 10).pb2_pb3_combo_duration = 0 ∧
    (ComboUpdate comboWindowModule 10).pb2_was_pressed_in_combo = false ∧
    (ComboUpdate comboWindowModule 10).pb3_was_pressed_in_combo = false ∧
    (ComboUpdate comboWindowModule 10).pb2_pb3_combo_long_press_sent = false :=
  (c4_combo_click comboWindowModule 10 rfl rfl rfl rfl (by decide) (by decide) rfl).1

/-- Claim C5: while PB2 and PB3 are both debounced-pressed, the tick on which
the accumulated combo duration reaches the 1000 ms threshold signals the
combo long press (setting the once-per-window latch and cancelling pending
individual PB2/PB3 clicks, without raising a combo click); once the latch is
set it stays set for the rest of the window, so the long press cannot be
signaled again; and at window close the set latch suppresses the combo
click. -/
theorem c5_combo_long_press (e : Nat) :
    (∀ m : ButtonsModule, m.pb2.current_state = true → m.pb3.current_state = true →
      LONG_PRESS_THRESHOLD_MS ≤ (m.pb2_pb3_combo_duration + e) % U16_MOD →
      m.pb2_pb3_combo_long_press_sent = false →
      (ComboUpdate m e).pb2_pb3_combo_long_press_sent = true ∧
      (ComboUpdate m e).pb2.click_pending = false ∧
      (ComboUpdate m e).pb3.click_pending = false ∧
      (ComboUpdate m e).pb2_pb3_combo_click_pending = m.pb2_pb3_combo_click_pending) ∧
    (∀ m : ButtonsModule, m.pb2_pb3_combo_long_press_sent = true →
      (m.pb2.current_state = true ∨ m.pb3.current_state = true) →
      (ComboUpdate m e).pb2_pb3_combo_long_press_sent = true) ∧
    (∀ m : ButtonsModule, m.pb2.current_state = false → m.pb3.current_state = false →
      m.pb2_pb3_combo_long_press_sent = true →
      (ComboUpdate m e).pb2_pb3_combo_click_pending = m.pb2_pb3_combo_click_pending) := by
  refine ⟨?_, ?_, ?_⟩
  · intro m h2 h3 hd hs
    simp [ComboUpdate, h2, h3, hd, hs]
  · intro m hs hp
    rcases hp with hp | hp <;> simp [ComboUpdate, hp, hs]
  · intro m h2 h3 hs
    simp [ComboUpdate, h2, h3, hs]

/-- Witness for C5 at a concrete held pair: both buttons held, duration
reaching 1000 ms this tick, latch not yet set. -/
theorem c5_witness :
    (ComboUpdate bothHeldModule 10).pb2_pb3_combo_long_press_sent = true ∧
    (ComboUpdate bothHeldModule 10).pb2.click_pending = false ∧
    (ComboUpdate bothHeldModule 10).pb3.click_pending = false ∧
    (ComboUpdate bothHeldModule 10).pb2_pb3_combo_click_pending
      = bothHeldModule.pb2_pb3_combo_click_pending :=
  (c5_combo_long_press 10).1 bothHeldModule rfl rfl (by decide) rfl

/-- Claim C3: `Buttons_SendPendingEvents` delivers at most one event per
call, namely the one selected by the specification's priority order
(`specPriorityEvent`): the queue grows by exactly that event when there is
room and is unchanged otherwise; the call reports success exactly when an
event was selected and the bounded non-blocking send had room; and the
selected event's pending indicator is cleared (click flags cleared,
long-press latches set) whether or not the send succeeded, so a dropped
event is not retried. -/
theorem c3_send_priority (m : ButtonsModule) (q : List ButtonEvent) :
    ((Buttons_SendPendingEvents m q).2.1 =
      q ++ (match specPriorityEvent m with
            | none => []
            | some e => if q.length < BUTTON_QUEUE_SIZE then [e] else [])) ∧
    ((Buttons_SendPendingEvents m q).2.2
      = ((specPriorityEvent m).isSome && decide (q.length < BUTTON_QUEUE_SIZE))) ∧
    (m.pb2_pb3_combo_click_pending = true →
      (Buttons_SendPendingEvents m q).1.pb2_pb3_combo_click_pending = false) ∧
    (specPriorityEvent m = some ⟨BUTTON_PB2_AND_PB3, EVENT_LONG_PRESS⟩ →
      (Buttons_SendPendingEvents m q).1.pb2_pb3_combo_long_press_sent = true) ∧
    (specPriorityEvent m = some ⟨BUTTON_PB1, EVENT_CLICK⟩ →
      (Buttons_SendPendingEvents m q).1.pb1.click_pending = false) ∧
    (specPriorityEvent m = some ⟨BUTTON_PB3, EVENT_LONG_PRESS⟩ →
      (Buttons_SendPendingEvents m q).1.pb3.long_press_sent = true) ∧
    (specPriorityEvent m = some ⟨BUTTON_PB3, EVENT_CLICK⟩ →
      (Buttons_SendPendingEvents m q).1.pb3.click_pending = false) ∧
    (specPriorityEvent m = some ⟨BUTTON_PB2, EVENT_CLICK⟩ →
      (Buttons_SendPendingEvents m q).1.pb2.click_pending = false) := by
  cases hccp : m.pb2_pb3_combo_click_pending with
  | true =>
      simp [Buttons_SendPendingEvents, specPriorityEvent, xQueueSend, hccp]
      split_ifs <;> simp <;> omega
  | false =>
      cases hlp : (m.pb2.current_state && m.pb3.current_state &&
          decide (LONG_PRESS_THRESHOLD_MS ≤ m.pb2_pb3_combo_duration) &&
          !m.pb2_pb3_combo_long_press_sent) with
      | true =>
          simp [Buttons_SendPendingEvents, specPriorityEvent, xQueueSend,
            Buttons_IsPB2AndPB3LongPress, hccp, hlp]
          split_ifs <;> simp <;> omega
      | false =>
          cases hp1 : m.pb1.click_pending with
          | true =>
              simp [Buttons_SendPendingEvents, specPriorityEvent, xQueueSend,
                Buttons_IsPB2AndPB3LongPress, hccp, hlp, hp1]
              split_ifs <;> simp <;> omega
          | false =>
              cases hlp3 : (m.pb3.current_state &&
                  decide (LONG_PRESS_THRESHOLD_MS ≤ m.pb3.press_duration) &&
                  !m.pb3.long_press_sent) with
              | true =>
                  simp [Buttons_SendPendingEvents, specPriorityEvent, xQueueSend,
                    Buttons_IsPB2AndPB3LongPress, CheckLongPress, hccp, hlp, hp1, hlp3]
                  split_ifs <;> simp <;> omega
              | false =>
                  cases hp3 : m.pb3.click_pending with
                  | true =>
                      simp [Buttons_SendPendingEvents, specPriorityEvent, xQueueSend,
                        Buttons_IsPB2AndPB3LongPress, CheckLongPress, hccp, hlp, hp1,
                        hlp3, hp3]
                      split_ifs <;> simp <;> omega
                  | false =>
                      cases hp2 : m.pb2.click_pending with
                      | true =>
                          simp [Buttons_SendPendingEvents, specPriorityEvent, xQueueSend,
                            Buttons_IsPB2AndPB3LongPress, CheckLongPress, hccp, hlp, hp1,
                            hlp3, hp3, hp2]
                          split_ifs <;> simp <;> omega
                      | false =>
                          simp [Buttons_SendPendingEvents, specPriorityEvent, xQueueSend,
                            Buttons_IsPB2AndPB3LongPress, CheckLongPress, hccp, hlp, hp1,
                            hlp3, hp3, hp2]

/-- Witness for C3: with every gesture pending at once and an empty queue,
exactly the combo click is delivered and its flag is cleared. -/
theorem c3_witness :
    ((Buttons_SendPendingEvents allPendingModule []).2.1 =
      [] ++ (match specPriorityEvent allPendingModule with
             | none => []
             | some e => if ([] : List ButtonEvent).length < BUTTON_QUEUE_SIZE then [e] else [])) ∧
    (Buttons_SendPendingEvents allPendingModule []).1.pb2_pb3_combo_click_pending = false :=
  ⟨(c3_send_priority allPendingModule []).1,
   (c3_send_priority allPendingModule []).2.2.1 (by decide)⟩
